import Mathlib

/-!
# MINERVA risk scorer: a shallow embedding of `generate_analysis` (src/app.py)

The repository's one piece of logic is the Streamlit callback helper
`generate_analysis(audio_path=None, text=None, demo_mode=False)` in
`src/app.py` (lines 116-169).  It draws a pseudo-random "probability",
clamps it to [5, 95], buckets it into one of five risk tiers via an
if/elif cascade, and returns a dictionary of display fields.

Embedding choices:

* Numbers are modelled as rationals (`ℚ`).  The Python code computes with
  IEEE floats, but every numeric constant and comparison in the function is
  exactly representable / order-faithful at the granularity the claims talk
  about, so the rational idealisation is the intended reading of the spec.
* NumPy's global random generator is modelled as a position (`ℕ`) into
  abstract draw streams carried by an environment `Env`: each call to a
  sampling routine reads the stream at the current position and advances the
  position by one; `np.random.seed(seed)` sets the position to
  `Env.seedFn seed`.  The clock (`datetime.now()`) is modelled by the
  `dateStr`/`timeStr` fields of the environment.  `Env.Valid` records the
  ranges the NumPy sampling routines guarantee
  (`np.random.choice([15,35,65,85], p=[0.3,0.4,0.2,0.1])`,
  `np.random.uniform(-5, 5)`, `np.random.uniform(10, 95)`,
  `np.random.randint(1000, 9999)` — note NumPy's `randint` and `uniform`
  exclude the upper bound, except that `uniform(-5,5)` is modelled with the
  closed interval the spec states, a superset of NumPy's half-open one) and
  that `strftime('%Y%m%d')` yields eight digits.
* Python's built-in `hash` of a string (process-salted) is an arbitrary
  function `String → ℤ` in the environment; Python's `%` with a positive
  modulus agrees with Lean's `Int.emod`.
* Python's `round(x, 1)` is modelled as `round1`, rounding to the nearest
  tenth (ties at .x5 never arise in any claim, so the tie-breaking
  convention is immaterial).
* All other caller-visible state (the Streamlit session state, etc.) is a
  type parameter `σ` threaded through `World σ` untouched, so the frame
  property of the function is a provable statement rather than a convention.
-/

/-- The dictionary returned by `generate_analysis` (src/app.py lines 160-169). -/
structure Report where
  probability : ℚ
  risk_level : String
  risk_class : String
  recommendation : String
  color : String
  icon : String
  timestamp : String
  analysis_id : String
deriving Repr, DecidableEq

/-- The ambient nondeterminism of one call: the NumPy global generator's draw
streams (indexed by generator position), the effect of `np.random.seed`, the
Python string hash, and the clock. -/
structure Env where
  /-- value of `np.random.choice([15, 35, 65, 85], p=[0.3, 0.4, 0.2, 0.1])`
  when the generator is at the given position -/
  choice : ℕ → ℚ
  /-- value of `np.random.uniform(-5, 5)` at the given position -/
  uniformNeg5_5 : ℕ → ℚ
  /-- value of `np.random.uniform(10, 95)` at the given position -/
  uniform10_95 : ℕ → ℚ
  /-- value of `np.random.randint(1000, 9999)` at the given position -/
  randint1000_9999 : ℕ → ℕ
  /-- the generator position `np.random.seed(seed)` resets to -/
  seedFn : ℤ → ℕ
  /-- Python's built-in `hash` on strings (process-salted, may be negative) -/
  pyHash : String → ℤ
  /-- `datetime.now().strftime('%Y%m%d')` -/
  dateStr : String
  /-- `datetime.now().strftime('%Y-%m-%d %H:%M:%S')` -/
  timeStr : String

/-- The ranges NumPy documents for the sampling routines the function calls,
and the shape `strftime('%Y%m%d')` guarantees for the date. -/
structure Env.Valid (env : Env) : Prop where
  choice_mem : ∀ n, env.choice n = 15 ∨ env.choice n = 35 ∨
    env.choice n = 65 ∨ env.choice n = 85
  noise_mem : ∀ n, -5 ≤ env.uniformNeg5_5 n ∧ env.uniformNeg5_5 n ≤ 5
  uniform_mem : ∀ n, 10 ≤ env.uniform10_95 n ∧ env.uniform10_95 n < 95
  randint_mem : ∀ n, 1000 ≤ env.randint1000_9999 n ∧ env.randint1000_9999 n < 9999
  date_len : env.dateStr.length = 8
  date_digits : ∀ c ∈ env.dateStr.toList, c.isDigit = true

/-- Caller-visible state: the generator position plus everything else
(`other`), which `generate_analysis` must not touch. -/
structure World (σ : Type) where
  rngPos : ℕ
  other : σ

/-- Python's `str` applied to an optional string: `str(None) = "None"`. -/
def pyStr : Option String → String
  | none => "None"
  | some s => s

/-- `round(x, 1)`: round to the nearest tenth (src/app.py line 161). -/
def round1 (q : ℚ) : ℚ := (round (q * 10) : ℤ) / 10

/-- `seed = hash(str(audio_path) + str(text)) % 10000` (src/app.py line 122);
Lean's `%` on `ℤ` is Euclidean and agrees with Python's `%` for a positive
modulus. -/
def seedOf (env : Env) (audio_path text : Option String) : ℤ :=
  env.pyHash (pyStr audio_path ++ pyStr text) % 10000

/-- The five display fields produced by the risk-categorisation if/elif
cascade (src/app.py lines 129-158). -/
structure TierInfo where
  risk_level : String
  risk_class : String
  recommendation : String
  color : String
  icon : String
deriving Repr, DecidableEq

/-- The risk-categorisation cascade of src/app.py lines 129-158, verbatim. -/
def tierInfo (probability : ℚ) : TierInfo :=
  if probability < 20 then
    { risk_level := "Very Low Risk", risk_class := "risk-low",
      recommendation := "Continue routine cognitive screening",
      color := "#36B37E", icon := "✅" }
  else if probability < 40 then
    { risk_level := "Low Risk", risk_class := "risk-low",
      recommendation := "Annual cognitive screening recommended",
      color := "#4C9AFF", icon := "✅" }
  else if probability < 60 then
    { risk_level := "Moderate Risk", risk_class := "risk-moderate",
      recommendation := "Comprehensive neuropsychological evaluation within 6 months",
      color := "#FFAB00", icon := "⚠️" }
  else if probability < 80 then
    { risk_level := "High Risk", risk_class := "risk-high",
      recommendation := "Urgent referral to neurologist or memory clinic",
      color := "#FF5630", icon := "🚨" }
  else
    { risk_level := "Very High Risk", risk_class := "risk-high",
      recommendation := "Immediate clinical evaluation required",
      color := "#BF2600", icon := "🔴" }

/-- The branch on src/app.py lines 118-124: the raw probability drawn and the
generator position after the draw.  Demo branch: one `choice` draw plus one
`uniform(-5,5)` draw.  Seeded branch: `np.random.seed(seed)` resets the
position, then one `uniform(10,95)` draw. -/
def rawDraw {σ : Type} (env : Env) (audio_path text : Option String)
    (demo_mode : Bool) (w : World σ) : ℚ × ℕ :=
  if demo_mode || (audio_path.isNone && text.isNone) then
    (env.choice w.rngPos + env.uniformNeg5_5 (w.rngPos + 1), w.rngPos + 2)
  else
    (env.uniform10_95 (env.seedFn (seedOf env audio_path text)),
     env.seedFn (seedOf env audio_path text) + 1)

/-- `probability = max(5, min(95, probability))` (src/app.py line 126). -/
def clampedScore {σ : Type} (env : Env) (audio_path text : Option String)
    (demo_mode : Bool) (w : World σ) : ℚ :=
  max 5 (min 95 (rawDraw env audio_path text demo_mode w).1)

/-- `generate_analysis` (src/app.py lines 116-169): draw, clamp, categorise,
and build the report; the `randint(1000, 9999)` for the analysis id is one
further draw from the generator. -/
def generate_analysis {σ : Type} (env : Env) (audio_path text : Option String)
    (demo_mode : Bool) (w : World σ) : Report × World σ :=
  let pos := (rawDraw env audio_path text demo_mode w).2
  let probability := clampedScore env audio_path text demo_mode w
  let t := tierInfo probability
  ({ probability := round1 probability
     risk_level := t.risk_level
     risk_class := t.risk_class
     recommendation := t.recommendation
     color := t.color
     icon := t.icon
     timestamp := env.timeStr
     analysis_id :=
       "MIN-" ++ env.dateStr ++ "-" ++ toString (env.randint1000_9999 pos) },
   { rngPos := pos + 1, other := w.other })

/-! ## Helper lemmas -/

/-- The report's probability field is the clamped score rounded to one
decimal place. -/
theorem gen_probability {σ : Type} (env : Env) (a t : Option String)
    (d : Bool) (w : World σ) :
    (generate_analysis env a t d w).1.probability
      = round1 (clampedScore env a t d w) := rfl

theorem gen_risk_level {σ : Type} (env : Env) (a t : Option String)
    (d : Bool) (w : World σ) :
    (generate_analysis env a t d w).1.risk_level
      = (tierInfo (clampedScore env a t d w)).risk_level := rfl

theorem gen_recommendation {σ : Type} (env : Env) (a t : Option String)
    (d : Bool) (w : World σ) :
    (generate_analysis env a t d w).1.recommendation
      = (tierInfo (clampedScore env a t d w)).recommendation := rfl

theorem gen_color {σ : Type} (env : Env) (a t : Option String)
    (d : Bool) (w : World σ) :
    (generate_analysis env a t d w).1.color
      = (tierInfo (clampedScore env a t d w)).color := rfl

theorem gen_icon {σ : Type} (env : Env) (a t : Option String)
    (d : Bool) (w : World σ) :
    (generate_analysis env a t d w).1.icon
      = (tierInfo (clampedScore env a t d w)).icon := rfl

theorem gen_analysis_id {σ : Type} (env : Env) (a t : Option String)
    (d : Bool) (w : World σ) :
    (generate_analysis env a t d w).1.analysis_id
      = "MIN-" ++ env.dateStr ++ "-"
          ++ toString (env.randint1000_9999 (rawDraw env a t d w).2) := rfl

/-- `round1` is monotone. -/
theorem round1_mono {a b : ℚ} (h : a ≤ b) : round1 a ≤ round1 b := by
  unfold round1
  have hr : round (a * 10) ≤ round (b * 10) := by
    rw [round_eq, round_eq]
    exact Int.floor_le_floor (by linarith)
  exact div_le_div_of_nonneg_right (by exact_mod_cast hr) (by norm_num)

/-- `round1` fixes integers. -/
theorem round1_intCast (n : ℤ) : round1 (n : ℚ) = n := by
  unfold round1
  have h10 : ((n : ℚ) * 10) = ((n * 10 : ℤ) : ℚ) := by push_cast; ring
  rw [h10, round_intCast]
  push_cast; ring

/-- Rounding to a decimal place keeps a value between integer bounds. -/
theorem round1_between {x : ℚ} (lo hi : ℤ) (h1 : (lo : ℚ) ≤ x)
    (h2 : x ≤ (hi : ℚ)) : (lo : ℚ) ≤ round1 x ∧ round1 x ≤ (hi : ℚ) :=
  ⟨round1_intCast lo ▸ round1_mono h1, round1_intCast hi ▸ round1_mono h2⟩

/-- The clamp is the identity on [5, 95]. -/
theorem clamp_eq_self {x : ℚ} (h5 : 5 ≤ x) (h95 : x ≤ 95) :
    max 5 (min 95 x) = x := by
  rw [min_eq_right h95, max_eq_right h5]

theorem clampedScore_ge {σ : Type} (env : Env) (a t : Option String)
    (d : Bool) (w : World σ) : 5 ≤ clampedScore env a t d w :=
  le_max_left _ _

theorem clampedScore_le {σ : Type} (env : Env) (a t : Option String)
    (d : Bool) (w : World σ) : clampedScore env a t d w ≤ 95 :=
  max_le (by norm_num) (min_le_left _ _)

/-- On the demo branch the score is one `choice` draw plus one noise draw,
clamped. -/
theorem clampedScore_demo {σ : Type} (env : Env) (a t : Option String)
    (d : Bool) (w : World σ) (h : (d || (a.isNone && t.isNone)) = true) :
    clampedScore env a t d w
      = max 5 (min 95 (env.choice w.rngPos + env.uniformNeg5_5 (w.rngPos + 1))) := by
  unfold clampedScore rawDraw
  rw [if_pos h]

/-- On the seeded branch the score is the seeded `uniform(10,95)` draw,
clamped. -/
theorem clampedScore_seeded {σ : Type} (env : Env) (a t : Option String)
    (d : Bool) (w : World σ) (h : (d || (a.isNone && t.isNone)) = false) :
    clampedScore env a t d w
      = max 5 (min 95 (env.uniform10_95 (env.seedFn (seedOf env a t)))) := by
  unfold clampedScore rawDraw
  rw [if_neg (by simp [h])]

/-- Equal tier labels force equal tier records. -/
theorem tierInfo_level_inj (p q : ℚ)
    (h : (tierInfo p).risk_level = (tierInfo q).risk_level) :
    tierInfo p = tierInfo q := by
  unfold tierInfo at *
  split_ifs at h ⊢ <;> simp_all

/-! ## Concrete environments used as witnesses -/

/-- A concrete environment with constant draw streams, used to instantiate
universally quantified theorems. -/
def env0 : Env where
  choice := fun _ => 15
  uniformNeg5_5 := fun _ => 0
  uniform10_95 := fun _ => 50
  randint1000_9999 := fun _ => 1234
  seedFn := fun s => s.toNat
  pyHash := fun _ => 0
  dateStr := "20261012"
  timeStr := "2026-10-12 00:00:00"

theorem env0_valid : env0.Valid where
  choice_mem := fun _ => Or.inl rfl
  noise_mem := fun _ => by norm_num [env0]
  uniform_mem := fun _ => by norm_num [env0]
  randint_mem := fun _ => by norm_num [env0]
  date_len := rfl
  date_digits := by decide

/-- An environment whose seeded draw returns 19.96, exhibiting the rounding
boundary of claim C9. -/
def env1996 : Env where
  choice := fun _ => 15
  uniformNeg5_5 := fun _ => 0
  uniform10_95 := fun _ => 1996 / 100
  randint1000_9999 := fun _ => 1234
  seedFn := fun s => s.toNat
  pyHash := fun _ => 0
  dateStr := "20261012"
  timeStr := "2026-10-12 00:00:00"

/-- A world with generator position 0 and trivial extra state. -/
def w0 : World Unit := ⟨0, ()⟩

/-! ## Claims -/

/-- C1: for every combination of inputs (audio reference present or absent,
text present or absent, demo mode on or off) and every environment and
starting state, the probability field of the report returned by
`generate_analysis` satisfies `5.0 <= probability <= 95.0`. -/
theorem minerva_C1_probability_clamped (σ : Type) (env : Env)
    (a t : Option String) (d : Bool) (w : World σ) :
    5 ≤ (generate_analysis env a t d w).1.probability ∧
      (generate_analysis env a t d w).1.probability ≤ 95 := by
  rw [gen_probability]
  constructor
  · calc (5 : ℚ) = round1 5 := by norm_num [round1, round_eq]
      _ ≤ round1 (clampedScore env a t d w) :=
        round1_mono (clampedScore_ge env a t d w)
  · calc round1 (clampedScore env a t d w) ≤ round1 95 :=
        round1_mono (clampedScore_le env a t d w)
      _ = 95 := by norm_num [round1, round_eq]

/-- C2: tier assignment in `generate_analysis` is a function of the clamped
probability, with inclusive lower bounds and no overlaps: p < 20 yields
"Very Low Risk", 20 ≤ p < 40 "Low Risk", 40 ≤ p < 60 "Moderate Risk",
60 ≤ p < 80 "High Risk", 80 ≤ p "Very High Risk"; in particular 19.9 maps
to Very Low, 20.0 to Low, 39.9 to Low, 40.0 to Moderate, 79.9 to High and
80.0 to Very High. -/
theorem minerva_C2_tier_partition :
    (∀ (σ : Type) (env : Env) (a t : Option String) (d : Bool) (w : World σ),
      (generate_analysis env a t d w).1.risk_level
        = (tierInfo (clampedScore env a t d w)).risk_level) ∧
    (∀ p : ℚ, p < 20 → (tierInfo p).risk_level = "Very Low Risk") ∧
    (∀ p : ℚ, 20 ≤ p → p < 40 → (tierInfo p).risk_level = "Low Risk") ∧
    (∀ p : ℚ, 40 ≤ p → p < 60 → (tierInfo p).risk_level = "Moderate Risk") ∧
    (∀ p : ℚ, 60 ≤ p → p < 80 → (tierInfo p).risk_level = "High Risk") ∧
    (∀ p : ℚ, 80 ≤ p → (tierInfo p).risk_level = "Very High Risk") ∧
    (tierInfo (199 / 10)).risk_level = "Very Low Risk" ∧
    (tierInfo 20).risk_level = "Low Risk" ∧
    (tierInfo (399 / 10)).risk_level = "Low Risk" ∧
    (tierInfo 40).risk_level = "Moderate Risk" ∧
    (tierInfo (799 / 10)).risk_level = "High Risk" ∧
    (tierInfo 80).risk_level = "Very High Risk" := by
  refine ⟨fun σ env a t d w => gen_risk_level env a t d w, ?_, ?_, ?_, ?_, ?_,
    ?_, ?_, ?_, ?_, ?_, ?_⟩
  · intro p h; unfold tierInfo; rw [if_pos h]
  · intro p h h'; unfold tierInfo
    rw [if_neg (not_lt.2 h), if_pos h']
  · intro p h h'; unfold tierInfo
    rw [if_neg (not_lt.2 (by linarith)), if_neg (not_lt.2 h), if_pos h']
  · intro p h h'; unfold tierInfo
    rw [if_neg (not_lt.2 (by linarith)), if_neg (not_lt.2 (by linarith)),
      if_neg (not_lt.2 h), if_pos h']
  · intro p h; unfold tierInfo
    rw [if_neg (not_lt.2 (by linarith)), if_neg (not_lt.2 (by linarith)),
      if_neg (not_lt.2 (by linarith)), if_neg (not_lt.2 h)]
  · norm_num [tierInfo]
  · norm_num [tierInfo]
  · norm_num [tierInfo]
  · norm_num [tierInfo]
  · norm_num [tierInfo]
  · norm_num [tierInfo]

/-- Witness for C2 at the concrete probability 10. -/
theorem minerva_C2_tier_partition_witness :
    (tierInfo 10).risk_level = "Very Low Risk" :=
  minerva_C2_tier_partition.2.1 10 (by norm_num)

/-- C10: on the seeded path, the derived seed
`hash(str(audioRef) + str(text)) % 10000` always lies in [0, 9999] even for
a negative hash, so `np.random.seed` (which requires a seed in
[0, 2^32 - 1]) can never be handed an out-of-range value. -/
theorem minerva_C10_seed_in_range (env : Env) (a t : Option String) :
    0 ≤ seedOf env a t ∧ seedOf env a t < 10000 := by
  unfold seedOf
  exact ⟨Int.emod_nonneg _ (by norm_num), Int.emod_lt_of_pos _ (by norm_num)⟩

/-- C3: the recommendation, color, and icon of a report are a pure function
of the tier: any two invocations of `generate_analysis` whose reports carry
the same risk level also carry the same recommendation, color, and icon,
and the per-tier table is fixed ("Very Low Risk" pairs with "Continue
routine cognitive screening", "Very High Risk" with "Immediate clinical
evaluation required"). -/
theorem minerva_C3_tier_determines_display :
    (∀ (σ₁ σ₂ : Type) (env₁ env₂ : Env) (a₁ t₁ a₂ t₂ : Option String)
       (d₁ d₂ : Bool) (w₁ : World σ₁) (w₂ : World σ₂),
      (generate_analysis env₁ a₁ t₁ d₁ w₁).1.risk_level
          = (generate_analysis env₂ a₂ t₂ d₂ w₂).1.risk_level →
        (generate_analysis env₁ a₁ t₁ d₁ w₁).1.recommendation
            = (generate_analysis env₂ a₂ t₂ d₂ w₂).1.recommendation ∧
          (generate_analysis env₁ a₁ t₁ d₁ w₁).1.color
              = (generate_analysis env₂ a₂ t₂ d₂ w₂).1.color ∧
          (generate_analysis env₁ a₁ t₁ d₁ w₁).1.icon
              = (generate_analysis env₂ a₂ t₂ d₂ w₂).1.icon) ∧
    (∀ p : ℚ,
      ((tierInfo p).risk_level = "Very Low Risk" →
        (tierInfo p).recommendation = "Continue routine cognitive screening") ∧
      ((tierInfo p).risk_level = "Very High Risk" →
        (tierInfo p).recommendation = "Immediate clinical evaluation required")) := by
  constructor
  · intro σ₁ σ₂ env₁ env₂ a₁ t₁ a₂ t₂ d₁ d₂ w₁ w₂ h
    rw [gen_risk_level, gen_risk_level] at h
    have := tierInfo_level_inj _ _ h
    rw [gen_recommendation, gen_recommendation, gen_color, gen_color,
      gen_icon, gen_icon, this]
    exact ⟨rfl, rfl, rfl⟩
  · intro p
    unfold tierInfo
    split_ifs <;> exact ⟨fun h => by simp_all, fun h => by simp_all⟩

/-- Witness for C3: two invocations with different worlds but the same tier
share the display fields. -/
theorem minerva_C3_tier_determines_display_witness :
    (generate_analysis env0 none none true w0).1.recommendation
        = (generate_analysis env0 (some "a.wav") none true ⟨7, ()⟩).1.recommendation ∧
      (generate_analysis env0 none none true w0).1.color
          = (generate_analysis env0 (some "a.wav") none true ⟨7, ()⟩).1.color ∧
      (generate_analysis env0 none none true w0).1.icon
          = (generate_analysis env0 (some "a.wav") none true ⟨7, ()⟩).1.icon :=
  minerva_C3_tier_determines_display.1 Unit Unit env0 env0 none none
    (some "a.wav") none true true w0 ⟨7, ()⟩ rfl

/-- C4: whenever demo mode is on, or both inputs are absent, the base
probability is a draw from {15, 35, 65, 85} plus noise in [-5, 5], so the
reported probability lies in [10, 20] ∪ [30, 40] ∪ [60, 70] ∪ [80, 90]
(each interval [b-5, b+5] already sits inside the clamp range [5, 95]). -/
theorem minerva_C4_demo_path_intervals (σ : Type) (env : Env)
    (hv : env.Valid) (a t : Option String) (d : Bool) (w : World σ)
    (hpath : d = true ∨ (a = none ∧ t = none)) :
    (10 ≤ (generate_analysis env a t d w).1.probability ∧
        (generate_analysis env a t d w).1.probability ≤ 20) ∨
      (30 ≤ (generate_analysis env a t d w).1.probability ∧
        (generate_analysis env a t d w).1.probability ≤ 40) ∨
      (60 ≤ (generate_analysis env a t d w).1.probability ∧
        (generate_analysis env a t d w).1.probability ≤ 70) ∨
      (80 ≤ (generate_analysis env a t d w).1.probability ∧
        (generate_analysis env a t d w).1.probability ≤ 90) := by
  have hcond : (d || (a.isNone && t.isNone)) = true := by
    rcases hpath with h | ⟨ha, ht⟩
    · simp [h]
    · simp [ha, ht]
  rw [gen_probability, clampedScore_demo env a t d w hcond]
  obtain ⟨hn1, hn2⟩ := hv.noise_mem (w.rngPos + 1)
  rcases hv.choice_mem w.rngPos with hb | hb | hb | hb <;> rw [hb] <;>
    rw [clamp_eq_self (by linarith) (by linarith)]
  · exact Or.inl (by
      have := round1_between 10 20 (x := 15 + env.uniformNeg5_5 (w.rngPos + 1))
        (by push_cast; linarith) (by push_cast; linarith)
      constructor <;> [exact_mod_cast this.1; exact_mod_cast this.2])
  · exact Or.inr (Or.inl (by
      have := round1_between 30 40 (x := 35 + env.uniformNeg5_5 (w.rngPos + 1))
        (by push_cast; linarith) (by push_cast; linarith)
      constructor <;> [exact_mod_cast this.1; exact_mod_cast this.2]))
  · exact Or.inr (Or.inr (Or.inl (by
      have := round1_between 60 70 (x := 65 + env.uniformNeg5_5 (w.rngPos + 1))
        (by push_cast; linarith) (by push_cast; linarith)
      constructor <;> [exact_mod_cast this.1; exact_mod_cast this.2])))
  · exact Or.inr (Or.inr (Or.inr (by
      have := round1_between 80 90 (x := 85 + env.uniformNeg5_5 (w.rngPos + 1))
        (by push_cast; linarith) (by push_cast; linarith)
      constructor <;> [exact_mod_cast this.1; exact_mod_cast this.2])))

/-- Witness for C4 at the constant demo environment. -/
theorem minerva_C4_demo_path_intervals_witness :
    (10 ≤ (generate_analysis env0 none none true w0).1.probability ∧
        (generate_analysis env0 none none true w0).1.probability ≤ 20) ∨
      (30 ≤ (generate_analysis env0 none none true w0).1.probability ∧
        (generate_analysis env0 none none true w0).1.probability ≤ 40) ∨
      (60 ≤ (generate_analysis env0 none none true w0).1.probability ∧
        (generate_analysis env0 none none true w0).1.probability ≤ 70) ∨
      (80 ≤ (generate_analysis env0 none none true w0).1.probability ∧
        (generate_analysis env0 none none true w0).1.probability ≤ 90) :=
  minerva_C4_demo_path_intervals Unit env0 env0_valid none none true w0
    (Or.inl rfl)

/-- C5: with demo mode off and at least one input present, the seed is the
hash of the concatenated string forms of the inputs reduced modulo 10000,
the generator is reset with it, and the probability is the resulting
`uniform(10, 95)` draw (rounded to one decimal; the clamp is the identity on
that range). -/
theorem minerva_C5_seeded_path (σ : Type) (env : Env) (hv : env.Valid)
    (a t : Option String) (w : World σ) (h : a ≠ none ∨ t ≠ none) :
    seedOf env a t = env.pyHash (pyStr a ++ pyStr t) % 10000 ∧
      (generate_analysis env a t false w).1.probability
        = round1 (env.uniform10_95 (env.seedFn (seedOf env a t))) ∧
      10 ≤ env.uniform10_95 (env.seedFn (seedOf env a t)) ∧
      env.uniform10_95 (env.seedFn (seedOf env a t)) < 95 := by
  have hcond : (false || (a.isNone && t.isNone)) = false := by
    rcases h with h | h <;> cases a <;> cases t <;> simp_all
  obtain ⟨hu1, hu2⟩ := hv.uniform_mem (env.seedFn (seedOf env a t))
  refine ⟨rfl, ?_, hu1, hu2⟩
  rw [gen_probability, clampedScore_seeded env a t false w hcond,
    clamp_eq_self (by linarith) (by linarith)]

/-- Witness for C5 at a concrete environment and a present audio input. -/
theorem minerva_C5_seeded_path_witness :
    seedOf env0 (some "a.wav") none
        = env0.pyHash (pyStr (some "a.wav") ++ pyStr none) % 10000 ∧
      (generate_analysis env0 (some "a.wav") none false w0).1.probability
        = round1 (env0.uniform10_95 (env0.seedFn (seedOf env0 (some "a.wav") none))) ∧
      10 ≤ env0.uniform10_95 (env0.seedFn (seedOf env0 (some "a.wav") none)) ∧
      env0.uniform10_95 (env0.seedFn (seedOf env0 (some "a.wav") none)) < 95 :=
  minerva_C5_seeded_path Unit env0 env0_valid (some "a.wav") none w0
    (Or.inl (by simp))

/-- C6: two-run determinism of the seeded path.  With fixed, non-empty
inputs and demo mode off, two calls whose environments share the same hash
function, the same seeding behaviour, and the same seeded draw stream (the
same underlying generator algorithm) return the same probability, whatever
the two starting generator positions and session states were. -/
theorem minerva_C6_seeded_determinism (σ₁ σ₂ : Type) (env₁ env₂ : Env)
    (a t : Option String) (ha : a ≠ none) (ht : t ≠ none)
    (hh : env₁.pyHash = env₂.pyHash) (hs : env₁.seedFn = env₂.seedFn)
    (hu : env₁.uniform10_95 = env₂.uniform10_95)
    (w₁ : World σ₁) (w₂ : World σ₂) :
    (generate_analysis env₁ a t false w₁).1.probability
      = (generate_analysis env₂ a t false w₂).1.probability := by
  have hcond : ∀ _ : Unit, (false || (a.isNone && t.isNone)) = false := by
    intro _; cases a <;> cases t <;> simp_all
  have hseed : seedOf env₁ a t = seedOf env₂ a t := by
    unfold seedOf; rw [hh]
  rw [gen_probability, gen_probability,
    clampedScore_seeded env₁ a t false w₁ (hcond ()),
    clampedScore_seeded env₂ a t false w₂ (hcond ()),
    hseed, hs, hu]

/-- Witness for C6: the same environment run from two different generator
positions. -/
theorem minerva_C6_seeded_determinism_witness :
    (generate_analysis env0 (some "a.wav") (some "hello") false w0).1.probability
      = (generate_analysis env0 (some "a.wav") (some "hello") false
          (⟨42, ()⟩ : World Unit)).1.probability :=
  minerva_C6_seeded_determinism Unit Unit env0 env0 (some "a.wav")
    (some "hello") (by simp) (by simp) rfl rfl rfl w0 ⟨42, ()⟩

/-- C7: the analysis id is always `MIN-` followed by the current date
(eight digits from `strftime('%Y%m%d')`), a dash, and a 4-digit suffix in
[1000, 9999] (NumPy's `randint(1000, 9999)` in fact stays below 9999). -/
theorem minerva_C7_analysis_id_pattern (σ : Type) (env : Env)
    (hv : env.Valid) (a t : Option String) (d : Bool) (w : World σ) :
    ∃ suffix : ℕ,
      (generate_analysis env a t d w).1.analysis_id
          = "MIN-" ++ env.dateStr ++ "-" ++ toString suffix ∧
        1000 ≤ suffix ∧ suffix ≤ 9999 ∧
        env.dateStr.length = 8 ∧
        ∀ c ∈ env.dateStr.toList, c.isDigit = true := by
  obtain ⟨h1, h2⟩ := hv.randint_mem (rawDraw env a t d w).2
  exact ⟨env.randint1000_9999 (rawDraw env a t d w).2,
    gen_analysis_id env a t d w, h1, by omega, hv.date_len, hv.date_digits⟩

/-- Witness for C7 at the constant environment. -/
theorem minerva_C7_analysis_id_pattern_witness :
    ∃ suffix : ℕ,
      (generate_analysis env0 none none true w0).1.analysis_id
          = "MIN-" ++ env0.dateStr ++ "-" ++ toString suffix ∧
        1000 ≤ suffix ∧ suffix ≤ 9999 ∧
        env0.dateStr.length = 8 ∧
        ∀ c ∈ env0.dateStr.toList, c.isDigit = true :=
  minerva_C7_analysis_id_pattern Unit env0 env0_valid none none true w0

/-- C8: `generate_analysis` has no side effect beyond the random source (and
reading the clock): in the state it returns, everything except the
generator position is exactly the caller's state, and the generator
position only moves to just past the last draw. -/
theorem minerva_C8_frame (σ : Type) (env : Env) (a t : Option String)
    (d : Bool) (w : World σ) :
    ((generate_analysis env a t d w).2).other = w.other ∧
      ((generate_analysis env a t d w).2).rngPos
        = (rawDraw env a t d w).2 + 1 :=
  ⟨rfl, rfl⟩

/-- C9: the reported probability is the raw clamped score rounded to one
decimal place, while risk level, recommendation, color, and icon are all
derived from the unrounded clamped score; consequently a raw score of 19.96
is reported as probability 20.0 while still carrying the "Very Low Risk"
label of the tier below the boundary. -/
theorem minerva_C9_round_vs_tier :
    (∀ (σ : Type) (env : Env) (a t : Option String) (d : Bool) (w : World σ),
      (generate_analysis env a t d w).1.probability
          = round1 (clampedScore env a t d w) ∧
        (generate_analysis env a t d w).1.risk_level
            = (tierInfo (clampedScore env a t d w)).risk_level ∧
        (generate_analysis env a t d w).1.recommendation
            = (tierInfo (clampedScore env a t d w)).recommendation ∧
        (generate_analysis env a t d w).1.color
            = (tierInfo (clampedScore env a t d w)).color ∧
        (generate_analysis env a t d w).1.icon
            = (tierInfo (clampedScore env a t d w)).icon) ∧
    ((generate_analysis env1996 none (some "transcript") false w0).1.probability
        = 20 ∧
      (generate_analysis env1996 none (some "transcript") false w0).1.risk_level
        = "Very Low Risk") := by
  refine ⟨fun σ env a t d w => ⟨rfl, rfl, rfl, rfl, rfl⟩, ?_, ?_⟩
  · have hscore : clampedScore env1996 none (some "transcript") false w0
        = 1996 / 100 := by
      rw [clampedScore_seeded env1996 none (some "transcript") false w0
        (by simp)]
      norm_num [env1996]
    rw [gen_probability, hscore]
    norm_num [round1, round_eq]
  · have hscore : clampedScore env1996 none (some "transcript") false w0
        = 1996 / 100 := by
      rw [clampedScore_seeded env1996 none (some "transcript") false w0
        (by simp)]
      norm_num [env1996]
    rw [gen_risk_level, hscore]
    norm_num [tierInfo]
